import Mathlib

/-!
Verification development for the nt4-wasm client (Rust sources: src/types.rs,
src/binary.rs, src/log.rs, src/lib.rs).

Modelling conventions, used throughout:

* Machine integers are modelled as `Int`/`Nat` with explicit range checks and
  `% 2^w` where the source performs casts.
* `f64`/`f32` values are modelled by their IEEE-754 bit patterns (`Nat`), which
  MessagePack transports exactly.  The numeric conversions the serde decoding
  lattice performs (integer-to-double and so on) are implemented bit-exactly
  below (round to nearest, ties to even — the IEEE default used by Rust `as`
  casts for in-range values).
* Byte strings are `List Nat` (each entry a `u8` value).
* Rust panics (out-of-bounds indexing) are modelled by `Option`, with `none`
  for the panic.
-/

/-- A rounding shift: `shiftRound n sh` is `n * 2^sh` computed exactly for
`sh ≥ 0` and rounded to the nearest integer (ties to even) for `sh < 0`.
This is the core primitive of IEEE-754 round-to-nearest-even. -/
def shiftRound (n : Nat) (sh : Int) : Nat :=
  if 0 ≤ sh then n * 2 ^ sh.toNat
  else
    let d := 2 ^ (-sh).toNat
    let q := n / d
    let r := n % d
    if r * 2 > d ∨ (r * 2 = d ∧ q % 2 = 1) then q + 1 else q

/-- Bit pattern of the `f64` nearest to the integer `i` (Rust `i as f64`,
round to nearest, ties to even; exact for `|i| ≤ 2^53`). -/
def intToF64Bits (i : Int) : Nat :=
  if i = 0 then 0
  else
    let s : Nat := if i < 0 then 2 ^ 63 else 0
    let n := i.natAbs
    let k := Nat.log2 n
    if k ≤ 52 then s + (k + 1023) * 2 ^ 52 + (n * 2 ^ (52 - k) - 2 ^ 52)
    else
      let t := shiftRound n (52 - (k : Int))
      if t = 2 ^ 53 then s + (k + 1024) * 2 ^ 52
      else s + (k + 1023) * 2 ^ 52 + (t - 2 ^ 52)

/-- Bit pattern of the `f32` nearest to the integer `i` (Rust `i as f32`;
never overflows for `i64` inputs). -/
def intToF32Bits (i : Int) : Nat :=
  if i = 0 then 0
  else
    let s : Nat := if i < 0 then 2 ^ 31 else 0
    let n := i.natAbs
    let k := Nat.log2 n
    if k ≤ 23 then s + (k + 127) * 2 ^ 23 + (n * 2 ^ (23 - k) - 2 ^ 23)
    else
      let t := shiftRound n (23 - (k : Int))
      if t = 2 ^ 24 then s + (k + 128) * 2 ^ 23
      else s + (k + 127) * 2 ^ 23 + (t - 2 ^ 23)

/-- Widening `f32 → f64` on bit patterns (Rust `as` cast; exact — every `f32`
is representable as an `f64`; NaN payloads are shifted into the wider field). -/
def f32BitsToF64Bits (b : Nat) : Nat :=
  let s := b / 2 ^ 31 % 2
  let e := b / 2 ^ 23 % 2 ^ 8
  let m := b % 2 ^ 23
  if e = 255 then s * 2 ^ 63 + 2047 * 2 ^ 52 + m * 2 ^ 29
  else if e = 0 then
    if m = 0 then s * 2 ^ 63
    else
      let k := Nat.log2 m
      s * 2 ^ 63 + (k + 874) * 2 ^ 52 + (m * 2 ^ (52 - k) - 2 ^ 52)
  else s * 2 ^ 63 + (e + 896) * 2 ^ 52 + m * 2 ^ 29

/-- Narrowing `f64 → f32` on bit patterns (Rust `as` cast: round to nearest,
ties to even, overflow to infinity, tiny values to subnormals/zero).  In the
untagged decoding order below this conversion sits on a dead branch (every
content accepted by the `f32` deserializer is accepted by the earlier `f64`
one), but it is implemented exactly for completeness. -/
def f64BitsToF32Bits (b : Nat) : Nat :=
  let s := b / 2 ^ 63 % 2
  let e : Nat := b / 2 ^ 52 % 2 ^ 11
  let m := b % 2 ^ 52
  if e = 2047 then
    if m = 0 then s * 2 ^ 31 + 255 * 2 ^ 23
    else s * 2 ^ 31 + 255 * 2 ^ 23 + 2 ^ 22 + m / 2 ^ 30 % 2 ^ 22
  else
    let n := if e = 0 then m else 2 ^ 52 + m
    let p : Int := if e = 0 then -1074 else (e : Int) - 1075
    if n = 0 then s * 2 ^ 31
    else
      let bigK : Int := (Nat.log2 n : Int) + p
      if bigK < -126 then
        let t := shiftRound n (p + 149)
        if t = 0 then s * 2 ^ 31
        else if t = 2 ^ 23 then s * 2 ^ 31 + 2 ^ 23
        else s * 2 ^ 31 + t
      else
        let t := shiftRound n (p - (bigK - 23))
        if t = 2 ^ 24 then
          if bigK + 1 > 127 then s * 2 ^ 31 + 255 * 2 ^ 23
          else s * 2 ^ 31 + (bigK + 1 + 127).toNat * 2 ^ 23
        else
          if bigK > 127 then s * 2 ^ 31 + 255 * 2 ^ 23
          else s * 2 ^ 31 + (bigK + 127).toNat * 2 ^ 23 + (t - 2 ^ 23)

/-!
UTF-8 (Rust `str::from_utf8` / `String::from_utf8_lossy`).  `utf8Chunks`
splits a byte list into maximal decodable chunks: `some c` for a decoded
scalar value, `none` for a maximal ill-formed subpart (the unit that
`from_utf8_lossy` replaces with one U+FFFD).  Strict decoding succeeds iff
no chunk is `none`.
-/

def utf8Chunks : List Nat → List (Option Char)
  | [] => []
  | b0 :: r =>
    if b0 < 0x80 then some (Char.ofNat b0) :: utf8Chunks r
    else if b0 < 0xC2 then none :: utf8Chunks r
    else if b0 ≤ 0xDF then
      match r with
      | [] => [none]
      | b1 :: r1 =>
        if 0x80 ≤ b1 ∧ b1 ≤ 0xBF then
          some (Char.ofNat ((b0 - 0xC0) * 64 + (b1 - 0x80))) :: utf8Chunks r1
        else none :: utf8Chunks (b1 :: r1)
    else if b0 ≤ 0xEF then
      match r with
      | [] => [none]
      | b1 :: r1 =>
        if (if b0 = 0xE0 then 0xA0 ≤ b1 ∧ b1 ≤ 0xBF
            else if b0 = 0xED then 0x80 ≤ b1 ∧ b1 ≤ 0x9F
            else 0x80 ≤ b1 ∧ b1 ≤ 0xBF) then
          match r1 with
          | [] => [none]
          | b2 :: r2 =>
            if 0x80 ≤ b2 ∧ b2 ≤ 0xBF then
              some (Char.ofNat ((b0 - 0xE0) * 4096 + (b1 - 0x80) * 64 + (b2 - 0x80))) ::
                utf8Chunks r2
            else none :: utf8Chunks (b2 :: r2)
        else none :: utf8Chunks (b1 :: r1)
    else if b0 ≤ 0xF4 then
      match r with
      | [] => [none]
      | b1 :: r1 =>
        if (if b0 = 0xF0 then 0x90 ≤ b1 ∧ b1 ≤ 0xBF
            else if b0 = 0xF4 then 0x80 ≤ b1 ∧ b1 ≤ 0x8F
            else 0x80 ≤ b1 ∧ b1 ≤ 0xBF) then
          match r1 with
          | [] => [none]
          | b2 :: r2 =>
            if 0x80 ≤ b2 ∧ b2 ≤ 0xBF then
              match r2 with
              | [] => [none]
              | b3 :: r3 =>
                if 0x80 ≤ b3 ∧ b3 ≤ 0xBF then
                  some (Char.ofNat
                      ((b0 - 0xF0) * 262144 + (b1 - 0x80) * 4096 + (b2 - 0x80) * 64 +
                        (b3 - 0x80))) :: utf8Chunks r3
                else none :: utf8Chunks (b3 :: r3)
            else none :: utf8Chunks (b2 :: r2)
        else none :: utf8Chunks (b1 :: r1)
    else none :: utf8Chunks r

/-- Strict UTF-8 decoding (`str::from_utf8`): succeeds iff every chunk is
well-formed. -/
def utf8Decode? (l : List Nat) : Option String :=
  if (utf8Chunks l).all Option.isSome then some ⟨(utf8Chunks l).filterMap id⟩ else none

/-- Lossy UTF-8 decoding (`String::from_utf8_lossy`): each maximal ill-formed
subpart becomes one U+FFFD replacement character. -/
def utf8Lossy (l : List Nat) : String :=
  ⟨(utf8Chunks l).map (fun o => o.getD (Char.ofNat 0xFFFD))⟩

/-- UTF-8 encoding of one scalar value. -/
def charUtf8 (c : Char) : List Nat :=
  let n := c.toNat
  if n < 0x80 then [n]
  else if n < 0x800 then [0xC0 + n / 64, 0x80 + n % 64]
  else if n < 0x10000 then [0xE0 + n / 4096, 0x80 + n / 64 % 64, 0x80 + n % 64]
  else [0xF0 + n / 262144, 0x80 + n / 4096 % 64, 0x80 + n / 64 % 64, 0x80 + n % 64]

/-- UTF-8 encoding of a string (Rust `str::as_bytes`). -/
def strToBytes (s : String) : List Nat :=
  (s.data.map charUtf8).flatten

/-!
Value Type System (src/types.rs, the `nt4_type!` macro expansion).
-/

/-- Alias for the Rust `i64` payload type. -/
abbrev I64 := Int

/-- Alias for an `f64` bit pattern. -/
abbrev F64Bits := Nat

/-- Alias for an `f32` bit pattern. -/
abbrev F32Bits := Nat

/-- Alias for the Rust `String` payload type. -/
abbrev StrT := String

/-- Alias for `serde_bytes::ByteBuf` (a byte vector). -/
abbrev ByteBuf := List Nat

/-- `Nt4TypeId` (src/types.rs): the tag enum produced by the `nt4_type!`
macro invocation. -/
inductive Nt4TypeId where
  | Boolean | Double | Int | Float | String | Json
  | Raw | Rpc | MsgPack | Protobuf
  | BooleanArray | DoubleArray | IntArray | FloatArray | StringArray
deriving DecidableEq

/-- `Nt4TypeId::get_id` — the numeric wire ids from the macro arguments
(String/Json share 4; Raw/Rpc/MsgPack/Protobuf share 5). -/
def Nt4TypeId.get_id : Nt4TypeId → Nat
  | .Boolean => 0 | .Double => 1 | .Int => 2 | .Float => 3
  | .String => 4 | .Json => 4
  | .Raw => 5 | .Rpc => 5 | .MsgPack => 5 | .Protobuf => 5
  | .BooleanArray => 16 | .DoubleArray => 17 | .IntArray => 18
  | .FloatArray => 19 | .StringArray => 20

/-- `Nt4TypeId::get_name`. -/
def Nt4TypeId.get_name : Nt4TypeId → StrT
  | .Boolean => "boolean" | .Double => "double" | .Int => "int" | .Float => "float"
  | .String => "string" | .Json => "json"
  | .Raw => "raw" | .Rpc => "rpc" | .MsgPack => "msgpack" | .Protobuf => "protobuf"
  | .BooleanArray => "boolean[]" | .DoubleArray => "double[]" | .IntArray => "int[]"
  | .FloatArray => "float[]" | .StringArray => "string[]"

/-- `Nt4TypeId::from_id` — first matching macro arm wins (`#[allow(unreachable_patterns)]`
in the source: id 4 yields `String`, id 5 yields `Raw`). -/
def Nt4TypeId.from_id (id : Nat) : Except StrT Nt4TypeId :=
  match id with
  | 0 => .ok .Boolean
  | 1 => .ok .Double
  | 2 => .ok .Int
  | 3 => .ok .Float
  | 4 => .ok .String
  | 5 => .ok .Raw
  | 16 => .ok .BooleanArray
  | 17 => .ok .DoubleArray
  | 18 => .ok .IntArray
  | 19 => .ok .FloatArray
  | 20 => .ok .StringArray
  | x => .error (toString x)

/-- `Nt4Data` (src/types.rs): the `#[serde(untagged)]` value union, in the
declaration order of the `nt4_type!` invocation (the order serde's untagged
deserializer tries the variants in). -/
inductive Nt4Data where
  | Boolean (b : Bool)
  | Double (bits : F64Bits)
  | Int (n : I64)
  | Float (bits : F32Bits)
  | String (s : StrT)
  | Json (s : StrT)
  | Raw (b : ByteBuf)
  | Rpc (b : ByteBuf)
  | MsgPack (b : ByteBuf)
  | Protobuf (b : ByteBuf)
  | BooleanArray (l : List Bool)
  | DoubleArray (l : List F64Bits)
  | IntArray (l : List I64)
  | FloatArray (l : List F32Bits)
  | StringArray (l : List StrT)
deriving DecidableEq

/-- `Nt4Data::get_id`. -/
def Nt4Data.get_id : Nt4Data → Nat
  | .Boolean _ => 0 | .Double _ => 1 | .Int _ => 2 | .Float _ => 3
  | .String _ => 4 | .Json _ => 4
  | .Raw _ => 5 | .Rpc _ => 5 | .MsgPack _ => 5 | .Protobuf _ => 5
  | .BooleanArray _ => 16 | .DoubleArray _ => 17 | .IntArray _ => 18
  | .FloatArray _ => 19 | .StringArray _ => 20

/-- `Nt4Data::get_name`. -/
def Nt4Data.get_name : Nt4Data → StrT
  | .Boolean _ => "boolean" | .Double _ => "double" | .Int _ => "int" | .Float _ => "float"
  | .String _ => "string" | .Json _ => "json"
  | .Raw _ => "raw" | .Rpc _ => "rpc" | .MsgPack _ => "msgpack" | .Protobuf _ => "protobuf"
  | .BooleanArray _ => "boolean[]" | .DoubleArray _ => "double[]" | .IntArray _ => "int[]"
  | .FloatArray _ => "float[]" | .StringArray _ => "string[]"

/-!
MessagePack content model.  `rmp_serde` parses a wire value into one of these
content kinds before serde's untagged machinery buffers it (`Content` in
serde); integers carry their numeric value, floats their exact bit pattern,
wire strings are valid UTF-8 by the MessagePack reader.  `nil` covers the
msgpack nil token (rejected by every `Nt4Data` variant).  Nested containers
other than flat arrays of scalars never decode into `Nt4Data` and arrays are
modelled with full generality below.
-/

inductive Mp where
  | nil
  | bool (b : Bool)
  | int (n : Int)
  | f32 (bits : F32Bits)
  | f64 (bits : F64Bits)
  | str (s : StrT)
  | bin (b : ByteBuf)
  | arr (l : List Mp)

/-!
Per-variant deserializers, mirroring the serde `Deserialize` impls the
untagged decoding invokes on buffered content:

* `bool` accepts only boolean content;
* `f64`/`f32` accept every numeric content (serde's float visitors implement
  all integer/float `visit_*` methods, converting with `as` casts);
* integers accept only in-range integer content (no floats);
* `String` accepts string content and byte content that is valid UTF-8;
* `serde_bytes::ByteBuf` accepts byte, string and sequence-of-`u8` content;
* `Vec<T>` accepts only sequence content, elementwise.
-/

/-- serde `bool` deserialization from buffered content. -/
def asBoolC : Mp → Option Bool
  | .bool b => some b
  | _ => none

/-- serde `f64` deserialization from buffered content (accepts all numerics). -/
def asF64C : Mp → Option F64Bits
  | .f64 b => some b
  | .f32 b => some (f32BitsToF64Bits b)
  | .int n => some (intToF64Bits n)
  | _ => none

/-- serde `i64` deserialization from buffered content. -/
def asI64C : Mp → Option I64
  | .int n => if -(2 ^ 63) ≤ n ∧ n < 2 ^ 63 then some n else none
  | _ => none

/-- serde `i32` deserialization from buffered content. -/
def asI32C : Mp → Option Int
  | .int n => if -(2 ^ 31) ≤ n ∧ n < 2 ^ 31 then some n else none
  | _ => none

/-- serde `u8` deserialization from buffered content. -/
def asU8C : Mp → Option Nat
  | .int n => if 0 ≤ n ∧ n ≤ 255 then some n.toNat else none
  | _ => none

/-- serde `f32` deserialization from buffered content (accepts all numerics;
in the untagged order every use is shadowed by the earlier `f64` variant). -/
def asF32C : Mp → Option F32Bits
  | .f32 b => some b
  | .f64 b => some (f64BitsToF32Bits b)
  | .int n => some (intToF32Bits n)
  | _ => none

/-- serde `String` deserialization from buffered content (bytes must be
valid UTF-8, as in `str::from_utf8`). -/
def asStrC : Mp → Option StrT
  | .str s => some s
  | .bin b => utf8Decode? b
  | _ => none

/-- Elementwise decoding of a list, failing if any element fails
(serde's sequence visitors). -/
def optMap (f : α → Option β) : List α → Option (List β)
  | [] => some []
  | x :: xs =>
    match f x with
    | none => none
    | some y => (optMap f xs).map (y :: ·)

/-- `serde_bytes::ByteBuf` deserialization from buffered content. -/
def asBytesC : Mp → Option ByteBuf
  | .bin b => some b
  | .str s => some (strToBytes s)
  | .arr l => optMap asU8C l
  | _ => none

/-- `Vec<bool>` deserialization. -/
def asBoolArr : Mp → Option (List Bool)
  | .arr l => optMap asBoolC l
  | _ => none

/-- `Vec<f64>` deserialization. -/
def asF64Arr : Mp → Option (List F64Bits)
  | .arr l => optMap asF64C l
  | _ => none

/-- `Vec<i64>` deserialization. -/
def asI64Arr : Mp → Option (List I64)
  | .arr l => optMap asI64C l
  | _ => none

/-- `Vec<f32>` deserialization. -/
def asF32Arr : Mp → Option (List F32Bits)
  | .arr l => optMap asF32C l
  | _ => none

/-- `Vec<String>` deserialization. -/
def asStrArr : Mp → Option (List StrT)
  | .arr l => optMap asStrC l
  | _ => none

/-- `#[serde(untagged)]` deserialization of `Nt4Data`: try each variant's
deserializer on the buffered content in declaration order and return the
first success (serde's generated untagged `deserialize`). -/
def decodeNt4Data (m : Mp) : Option Nt4Data :=
  ((asBoolC m).map .Boolean) <|>
  ((asF64C m).map .Double) <|>
  ((asI64C m).map .Int) <|>
  ((asF32C m).map .Float) <|>
  ((asStrC m).map .String) <|>
  ((asStrC m).map .Json) <|>
  ((asBytesC m).map .Raw) <|>
  ((asBytesC m).map .Rpc) <|>
  ((asBytesC m).map .MsgPack) <|>
  ((asBytesC m).map .Protobuf) <|>
  ((asBoolArr m).map .BooleanArray) <|>
  ((asF64Arr m).map .DoubleArray) <|>
  ((asI64Arr m).map .IntArray) <|>
  ((asF32Arr m).map .FloatArray) <|>
  ((asStrArr m).map .StringArray)

/-- Serialization of `Nt4Data` to MessagePack content (the derived `Serialize`
under `rmp_serde`: untagged, so just the payload; `ByteBuf` becomes bin,
vectors become arrays of scalars). -/
def Nt4Data.encode : Nt4Data → Mp
  | .Boolean b => .bool b
  | .Double b => .f64 b
  | .Int n => .int n
  | .Float b => .f32 b
  | .String s => .str s
  | .Json s => .str s
  | .Raw b => .bin b
  | .Rpc b => .bin b
  | .MsgPack b => .bin b
  | .Protobuf b => .bin b
  | .BooleanArray l => .arr (l.map .bool)
  | .DoubleArray l => .arr (l.map .f64)
  | .IntArray l => .arr (l.map .int)
  | .FloatArray l => .arr (l.map .f32)
  | .StringArray l => .arr (l.map .str)

/-!
Binary Frame Codec (src/binary.rs).
-/

/-- `BinaryDataFrame` (src/binary.rs): `topic_id: i32`, `timestamp: i64`,
`data: Nt4Data`. -/
structure BinaryDataFrame where
  topic_id : Int
  timestamp : Int
  data : Nt4Data
deriving DecidableEq

/-- `BinaryDataFrame::timesync` — probe constructor carrying the local time
as an `Nt4Data::Int`. -/
def BinaryDataFrame.timesync (time : Int) : BinaryDataFrame :=
  { topic_id := -1, timestamp := 0, data := Nt4Data.Int time }

/-- Errors of `BinaryDataFrame::deserialize` (serde custom errors,
distinguished here structurally). -/
inductive DecodeError where
  | malformed
  | unknownTypeId (id : Nat)
  | typeMismatch (gotName : StrT) (expected : Nt4TypeId)
deriving DecidableEq

/-- `BinaryDataFrame`'s `Serialize` impl: a positional 4-tuple
`(topic_id, timestamp, data.get_id(), data)` (rmp serializes a tuple as a
MessagePack array). -/
def encodeFrame (f : BinaryDataFrame) : Mp :=
  .arr [.int f.topic_id, .int f.timestamp, .int (f.data.get_id : Int), f.data.encode]

/-- `BinaryDataFrame`'s `Deserialize` impl: read `(i32, i64, u8, Nt4Data)`
positionally, then reject when the decoded value's own id differs from the
declared type id (propagating `Nt4TypeId::from_id` failure first, as the
source's `map_err`/`?` does). -/
def decodeFrame (m : Mp) : Except DecodeError BinaryDataFrame :=
  match m with
  | .arr [a, b, c, d] =>
    match asI32C a, asI64C b, asU8C c, decodeNt4Data d with
    | some t, some ts, some id, some v =>
      if v.get_id ≠ id then
        match Nt4TypeId.from_id id with
        | .error _ => .error (.unknownTypeId id)
        | .ok expected => .error (.typeMismatch v.get_name expected)
      else .ok { topic_id := t, timestamp := ts, data := v }
    | _, _, _, _ => .error .malformed
  | _ => .error .malformed

/-- Which values survive the encode/decode round trip (derived below in the
C1 characterization): exactly the first variant of each alias/capture group,
with arrays nonempty and raw bytes not valid UTF-8. -/
def roundtrips : Nt4Data → Bool
  | .Boolean _ => true
  | .Double _ => true
  | .String _ => true
  | .Raw b => (utf8Decode? b).isNone
  | .BooleanArray l => !l.isEmpty
  | .DoubleArray l => !l.isEmpty
  | .StringArray l => !l.isEmpty
  | _ => false

/-!
WPILOG Decoder (src/log.rs).
-/

/-- `WpiLogRecordHeader` (src/log.rs). -/
structure WpiLogRecordHeader where
  entry_id_len : Nat
  payload_size_len : Nat
  timestamp_len : Nat
deriving DecidableEq

/-- `WpiLogRecordHeader::read_options` applied to one control byte: the source
computes `(bitfield & 0x03) + 1`, `(bitfield & 0x0c) + 1` and
`(bitfield & 0x70) + 1` (no right shifts). -/
def WpiLogRecordHeader.read (bitfield : Nat) : WpiLogRecordHeader :=
  { entry_id_len := (bitfield &&& 0x03) + 1
  , payload_size_len := (bitfield &&& 0x0c) + 1
  , timestamp_len := (bitfield &&& 0x70) + 1 }

/-- Record-header lengths as the spec describes them: bits 0–1, bits 2–3 and
bits 4–6 of the control byte, each taken as a small number, plus one.
(Spec-side comparator for the refinement claim C3.) -/
def specHeaderLens (b : Nat) : WpiLogRecordHeader :=
  { entry_id_len := b % 4 + 1
  , payload_size_len := b / 4 % 4 + 1
  , timestamp_len := b / 16 % 8 + 1 }

/-- The endianness `binrw` threads through `read_options` calls (chosen by the
absent caller of `WpiLog::read_*`; results below cover both choices). -/
inductive Endian where
  | le
  | be
deriving DecidableEq

/-- Big-endian value of a byte list. -/
def bytesToNatBE (l : List Nat) : Nat :=
  l.foldl (fun acc b => acc * 256 + b) 0

/-- `read_varlen_u32` (src/log.rs): reverse the `count` bytes read from the
stream, copy them into the low indices of a zeroed 4-byte buffer, reverse the
buffer, and read it as a `u32` with the inherited endianness.  Copying past
the 4-byte buffer (count > 4) panics, modelled as `none`. -/
def read_varlen_u32 (e : Endian) (bytes : List Nat) : Option Nat :=
  if bytes.length ≤ 4 then
    let rev := bytes.reverse
    let actual := (List.range 4).map (fun i => if i < rev.length then rev.getD i 0 else 0)
    let actual2 := actual.reverse
    some (match e with
      | .be => bytesToNatBE actual2
      | .le => bytesToNatBE actual2.reverse)
  else none

/-- `read_varlen_u64` (src/log.rs): as `read_varlen_u32` with an 8-byte
buffer. -/
def read_varlen_u64 (e : Endian) (bytes : List Nat) : Option Nat :=
  if bytes.length ≤ 8 then
    let rev := bytes.reverse
    let actual := (List.range 8).map (fun i => if i < rev.length then rev.getD i 0 else 0)
    let actual2 := actual.reverse
    some (match e with
      | .be => bytesToNatBE actual2
      | .le => bytesToNatBE actual2.reverse)
  else none

/-- The integer whose little-endian encoding is the given bytes zero-extended
to full width (spec-side comparator for the refinement claim C4). -/
def specVarlenLE (bytes : List Nat) : Nat :=
  bytesToNatBE bytes.reverse

/-- `RawData` (src/log.rs): a data record's entry id and raw payload bytes. -/
structure RawData where
  entry_id : Nat
  data : List Nat
deriving DecidableEq

/-- Big-endian `u32` of four bytes. -/
def beU32 (a b c d : Nat) : Nat :=
  a * 2 ^ 24 + b * 2 ^ 16 + c * 2 ^ 8 + d

/-- The `StringArray` loop of `RawData::get_data`: read `n` length-prefixed
strings starting at `offs`; any out-of-range index or slice panics (`none`). -/
def readStrings (data : List Nat) (offs : Nat) : Nat → Option (List StrT)
  | 0 => some []
  | n + 1 =>
    match data.get? offs, data.get? (offs + 1), data.get? (offs + 2), data.get? (offs + 3) with
    | some b0, some b1, some b2, some b3 =>
      let strlen := beU32 b0 b1 b2 b3
      if offs + 4 + strlen ≤ data.length then
        let s := utf8Lossy ((data.drop (offs + 4)).take strlen)
        (readStrings data (offs + 4 + strlen) n).map (s :: ·)
      else none
    | _, _, _, _ => none

/-- Chunking worker, structurally recursive on a fuel bounding the number of
chunks. -/
def chunksOfAux (sz : Nat) : Nat → List α → List (List α)
  | 0, _ => []
  | fuel + 1, l =>
    if l.length < sz + 1 then []
    else (l.take (sz + 1)) :: chunksOfAux sz fuel (l.drop (sz + 1))

/-- Split a list into complete chunks of size `sz + 1`, discarding any
incomplete remainder (itertools' `tuples`); each step consumes at least one
element, so the list's length bounds the number of chunks. -/
def chunksOf (sz : Nat) (l : List α) : List (List α) :=
  chunksOfAux sz l.length l

/-- Two's-complement `i64` of 8 big-endian bytes (`i64::from_be_bytes`). -/
def i64FromBeBytes (l : List Nat) : Int :=
  let n := bytesToNatBE l
  if n < 2 ^ 63 then (n : Int) else (n : Int) - 2 ^ 64

/-- `RawData::get_data` (src/log.rs): interpret the payload bytes at the type
resolved from the Start record.  Scalars use fixed-width big-endian layouts
read by direct indexing — an out-of-bounds index is a Rust panic, modelled as
`none`.  Array variants chunk the payload, discarding a short remainder;
`StringArray` walks 32-bit length prefixes. -/
def RawData.get_data (r : RawData) (ty : Nt4TypeId) : Option (Nat × Nt4Data) :=
  match ty with
  | .Boolean => (r.data.get? 0).map (fun b => (r.entry_id, .Boolean (b ≠ 0)))
  | .Double =>
    match r.data.get? 0, r.data.get? 1, r.data.get? 2, r.data.get? 3,
        r.data.get? 4, r.data.get? 5, r.data.get? 6, r.data.get? 7 with
    | some a, some b, some c, some d, some e, some f, some g, some h =>
      some (r.entry_id, .Double (bytesToNatBE [a, b, c, d, e, f, g, h]))
    | _, _, _, _, _, _, _, _ => none
  | .Int =>
    match r.data.get? 0, r.data.get? 1, r.data.get? 2, r.data.get? 3,
        r.data.get? 4, r.data.get? 5, r.data.get? 6, r.data.get? 7 with
    | some a, some b, some c, some d, some e, some f, some g, some h =>
      some (r.entry_id, .Int (i64FromBeBytes [a, b, c, d, e, f, g, h]))
    | _, _, _, _, _, _, _, _ => none
  | .Float =>
    match r.data.get? 0, r.data.get? 1, r.data.get? 2, r.data.get? 3 with
    | some a, some b, some c, some d => some (r.entry_id, .Float (bytesToNatBE [a, b, c, d]))
    | _, _, _, _ => none
  | .String => some (r.entry_id, .String (utf8Lossy r.data))
  | .Json => some (r.entry_id, .String (utf8Lossy r.data))
  | .Raw => some (r.entry_id, .Raw r.data)
  | .Rpc => some (r.entry_id, .Raw r.data)
  | .MsgPack => some (r.entry_id, .Raw r.data)
  | .Protobuf => some (r.entry_id, .Raw r.data)
  | .BooleanArray => some (r.entry_id, .BooleanArray (r.data.map (· ≠ 0)))
  | .DoubleArray =>
    some (r.entry_id, .DoubleArray ((chunksOf 7 r.data).map bytesToNatBE))
  | .IntArray =>
    some (r.entry_id, .IntArray ((chunksOf 7 r.data).map i64FromBeBytes))
  | .FloatArray =>
    some (r.entry_id, .FloatArray ((chunksOf 3 r.data).map bytesToNatBE))
  | .StringArray =>
    match r.data.get? 0, r.data.get? 1, r.data.get? 2, r.data.get? 3 with
    | some a, some b, some c, some d =>
      (readStrings r.data 4 (beU32 a b c d)).map (fun l => (r.entry_id, .StringArray l))
    | _, _, _, _ => none

/-!
Subscription options (src/types.rs).  `Duration` is modelled as rational
seconds.
-/

/-- `defaults::duration_100ms` (src/types.rs): `Duration::from_millis(100)`,
i.e. 100/1000 seconds. -/
def duration_100ms : ℚ := 100 / 1000

/-- `defaults::def_false` (src/types.rs).  The source function, despite its
name, returns `true`. -/
def def_false : Bool := true

/-- `SubscriptionOptions` (src/types.rs).  The Rust field `prefix` is a Lean
keyword and is named `prefixFlag` here. -/
structure SubscriptionOptions where
  periodic : ℚ
  all : Bool
  topicsonly : Bool
  prefixFlag : Bool
deriving DecidableEq

/-- `SubscriptionOptions::default` (src/types.rs). -/
def SubscriptionOptions.default : SubscriptionOptions :=
  { periodic := duration_100ms
  , all := def_false
  , topicsonly := def_false
  , prefixFlag := def_false }

/-- Deserializing `SubscriptionOptions` from an object in which any field may
be omitted: each `#[serde(default = ...)]` attribute supplies the listed
default function's value for a missing field. -/
def subscriptionOptionsDeserialize (periodic : Option ℚ)
    (all topicsonly prefixGiven : Option Bool) : SubscriptionOptions :=
  { periodic := periodic.getD duration_100ms
  , all := all.getD def_false
  , topicsonly := topicsonly.getD def_false
  , prefixFlag := prefixGiven.getD def_false }

/-!
Connection/session state machine (src/lib.rs).
-/

/-- `Properties` (src/lib.rs). -/
structure Properties where
  persistent : Bool
  retained : Bool
deriving DecidableEq

/-- `SubscribeOptions` (src/lib.rs).  The Rust field `prefix` is a Lean
keyword and is named `prefixFlag` here. -/
structure SubscribeOptions where
  periodic : Option ℚ
  all : Bool
  topicsonly : Bool
  prefixFlag : Bool
deriving DecidableEq

/-- `TextFrame` (src/lib.rs): the JSON control messages. -/
inductive TextFrame where
  | Publish (name : StrT) (pubuid : Int) (ty : StrT) (properties : Properties)
  | Unpublish (pubuid : Int)
  | SetProperties (name : StrT) (update : Properties)
  | Subscribe (topics : List StrT) (subuid : Int) (options : SubscribeOptions)
  | Unsubscribe (subuid : Int)
  | Announce (name : StrT) (id : Int) (ty : StrT) (pubuid : Int) (properties : Properties)
  | Unannounce (name : StrT) (id : Int)
  | Properties (name : StrT) (ack : Bool)

/-- `bimap::BiMap::insert` on the `topic_names` map, modelled as a pair list:
inserting removes any pair sharing either key, then appends the new pair. -/
def bimapInsert (m : List (StrT × Int)) (name : StrT) (id : Int) : List (StrT × Int) :=
  (m.filter (fun p => p.1 ≠ name ∧ p.2 ≠ id)) ++ [(name, id)]

/-- Observable outcome of processing one inbound text frame: the updated
`topic_names` map and, per listener list, the arguments it was invoked with
(`none` when the list was not invoked at all).  `announceArgs = some (n, t)`
means every registered announce callback was called once with `(n, t)`. -/
structure TextDispatch where
  topicNames : List (StrT × Int)
  announceArgs : Option (StrT × StrT)
  unannounceArgs : Option (StrT × Int)
  propertiesArgs : Option (StrT × Bool)
deriving DecidableEq

/-- The text branch of `on_message_callback` (src/lib.rs) for one frame: the
source's `match` handles only `TextFrame::Announce` (inserting into
`topic_names` and invoking each announce callback); the `_ => {}` arm drops
every other tag, including `Unannounce` and `Properties`. -/
def processTextFrame (m : List (StrT × Int)) (f : TextFrame) : TextDispatch :=
  match f with
  | .Announce name id ty _pubuid _properties =>
    { topicNames := bimapInsert m name id
    , announceArgs := some (name, ty)
    , unannounceArgs := none
    , propertiesArgs := none }
  | _ =>
    { topicNames := m
    , announceArgs := none
    , unannounceArgs := none
    , propertiesArgs := none }

/-- Observable outcome of one socket `error`/`close` event in
`onerror_callback` (src/lib.rs). -/
structure SocketEventResult where
  closeFired : Bool
  reconnectsScheduled : Nat
  backoffMs : Option Nat
  syncTimerCleared : Bool
  readyAfter : Bool
deriving DecidableEq

/-- `onerror_callback` (src/lib.rs): read `ready`; an `"error"` event clears
`ready` and falls through unconditionally; a `"close"` event returns early
when not ready; any other tag returns.  The fall-through clears `ready`,
invokes every close callback once, cancels the periodic sync interval and
schedules exactly one reconnect attempt after 3000 ms. -/
def onSocketEvent (ready : Bool) (ty : StrT) : SocketEventResult :=
  if ty = "error" then
    { closeFired := true, reconnectsScheduled := 1, backoffMs := some 3000
    , syncTimerCleared := true, readyAfter := false }
  else if ty = "close" then
    if ready = false then
      { closeFired := false, reconnectsScheduled := 0, backoffMs := none
      , syncTimerCleared := false, readyAfter := ready }
    else
      { closeFired := true, reconnectsScheduled := 1, backoffMs := some 3000
      , syncTimerCleared := true, readyAfter := false }
  else
    { closeFired := false, reconnectsScheduled := 0, backoffMs := none
    , syncTimerCleared := false, readyAfter := ready }

/-!
Clock synchronization (src/lib.rs).  The source computes with `f64`
microsecond values and rounds; the model works at whole microseconds (the
granularity at which the spec states the algorithm), with Rust's numeric
casts made explicit.
-/

/-- `.round()` of a half-integer quotient `d / 2.0` (f64 rounding is
round-half-away-from-zero). -/
def roundHalfDiv2 (d : Int) : Int :=
  if 0 ≤ d then (d + 1) / 2 else -((1 - d) / 2)

/-- Rust `f64 as u32` (saturating). -/
def f64AsU32 (x : Int) : Nat :=
  if x < 0 then 0 else if x > 4294967295 then 4294967295 else x.toNat

/-- Rust `u32 as i32` (two's-complement reinterpretation). -/
def u32AsI32 (x : Nat) : Int :=
  if x < 2 ^ 31 then (x : Int) else (x : Int) - 2 ^ 32

/-- Rust `f64 as i32` (saturating). -/
def f64AsI32 (x : Int) : Int :=
  if x < -(2 ^ 31) then -(2 ^ 31) else if x > 2 ^ 31 - 1 then 2 ^ 31 - 1 else x

/-- The timesync branch of `on_message_callback` (src/lib.rs):
`rtt_2 = ((now - local_time) / 2.0).round() as u32` and
`offs = server_time as i32 - rtt_2 as i32 - local_time.round() as i32`. -/
def computeOffset (serverTime : Nat) (localSent nowLocal : Int) : Int :=
  let rtt2 : Nat := f64AsU32 (roundHalfDiv2 (nowLocal - localSent))
  u32AsI32 serverTime - u32AsI32 rtt2 - f64AsI32 localSent

/-- `State::now` (src/lib.rs): `(now.round() as i32 + self.offs) as u32`,
the timestamp placed on every frame sent by `send_binary_fill`.  The `i32`
addition wraps (release build) and the `as u32` reinterprets, so the result
is the sum reduced modulo `2^32`. -/
def stateNow (offs elapsed : Int) : Nat :=
  ((f64AsI32 elapsed + offs) % 2 ^ 32).toNat

/-- The binary tuple frame `BinaryFrame(i64, u32, u32, T)` of src/lib.rs (a
separate type from `BinaryDataFrame`; this is what the live session sends),
with the payload kept as MessagePack content. -/
structure LibBinaryFrame where
  topicId : Int
  timestamp : Nat
  typeId : Nat
  value : Mp

/-- `timesync` (src/lib.rs): sends `BinaryFrame(-1, 0, 1, now)` where `now`
is the local elapsed time in microseconds as an `f64` (given here by its bit
pattern). -/
def libTimesync (nowBits : F64Bits) : LibBinaryFrame :=
  { topicId := -1, timestamp := 0, typeId := 1, value := Mp.f64 nowBits }

/-- The value the untagged decoder actually produces for each encoded
`Nt4Data` value (derived below in `decodeNt4Data_encode`): integer and `f32`
content is captured by the earlier `Double` variant, string content by
`String`, valid-UTF-8 byte content by `String`, other byte content and empty
or all-byte-valued sequences by `Raw`, and numeric sequences by
`DoubleArray`. -/
def reDecode : Nt4Data → Nt4Data
  | .Boolean b => .Boolean b
  | .Double d => .Double d
  | .Int n => .Double (intToF64Bits n)
  | .Float b => .Double (f32BitsToF64Bits b)
  | .String s => .String s
  | .Json s => .String s
  | .Raw b => match utf8Decode? b with | some s => .String s | none => .Raw b
  | .Rpc b => match utf8Decode? b with | some s => .String s | none => .Raw b
  | .MsgPack b => match utf8Decode? b with | some s => .String s | none => .Raw b
  | .Protobuf b => match utf8Decode? b with | some s => .String s | none => .Raw b
  | .BooleanArray l => if l.isEmpty then .Raw [] else .BooleanArray l
  | .DoubleArray l => if l.isEmpty then .Raw [] else .DoubleArray l
  | .IntArray l =>
    match optMap asU8C (l.map Mp.int) with
    | some bs => .Raw bs
    | none => .DoubleArray (l.map intToF64Bits)
  | .FloatArray l => if l.isEmpty then .Raw [] else .DoubleArray (l.map f32BitsToF64Bits)
  | .StringArray l => if l.isEmpty then .Raw [] else .StringArray l

/-!
Helper lemmas.
-/

theorem optMap_map_bool (l : List Bool) : optMap asBoolC (l.map Mp.bool) = some l := by
  induction l with
  | nil => rfl
  | cons x xs ih => simp [optMap, asBoolC, ih]

theorem optMap_map_f64 (l : List F64Bits) : optMap asF64C (l.map Mp.f64) = some l := by
  induction l with
  | nil => rfl
  | cons x xs ih => simp [optMap, asF64C, ih]

theorem optMap_map_int_f64 (l : List I64) :
    optMap asF64C (l.map Mp.int) = some (l.map intToF64Bits) := by
  induction l with
  | nil => rfl
  | cons x xs ih => simp [optMap, asF64C, ih]

theorem optMap_map_f32_f64 (l : List F32Bits) :
    optMap asF64C (l.map Mp.f32) = some (l.map f32BitsToF64Bits) := by
  induction l with
  | nil => rfl
  | cons x xs ih => simp [optMap, asF64C, ih]

theorem optMap_map_str (l : List StrT) : optMap asStrC (l.map Mp.str) = some l := by
  induction l with
  | nil => rfl
  | cons x xs ih => simp [optMap, asStrC, ih]

/-- What the untagged decoder returns on each encoded value. -/
theorem decodeNt4Data_encode (v : Nt4Data) :
    decodeNt4Data (Nt4Data.encode v) = some (reDecode v) := by
  cases v with
  | Boolean b => rfl
  | Double d => rfl
  | Int n => rfl
  | Float b => rfl
  | String s => rfl
  | Json s => rfl
  | Raw b =>
    cases h : utf8Decode? b <;>
      simp [decodeNt4Data, Nt4Data.encode, reDecode, asBoolC, asF64C, asI64C, asF32C,
        asStrC, asBytesC, h]
  | Rpc b =>
    cases h : utf8Decode? b <;>
      simp [decodeNt4Data, Nt4Data.encode, reDecode, asBoolC, asF64C, asI64C, asF32C,
        asStrC, asBytesC, h]
  | MsgPack b =>
    cases h : utf8Decode? b <;>
      simp [decodeNt4Data, Nt4Data.encode, reDecode, asBoolC, asF64C, asI64C, asF32C,
        asStrC, asBytesC, h]
  | Protobuf b =>
    cases h : utf8Decode? b <;>
      simp [decodeNt4Data, Nt4Data.encode, reDecode, asBoolC, asF64C, asI64C, asF32C,
        asStrC, asBytesC, h]
  | BooleanArray l =>
    cases l with
    | nil => rfl
    | cons x xs =>
      simp [decodeNt4Data, Nt4Data.encode, reDecode, asBoolC, asF64C, asI64C, asF32C,
        asStrC, asBytesC, asBoolArr, optMap, asU8C, optMap_map_bool]
  | DoubleArray l =>
    cases l with
    | nil => rfl
    | cons x xs =>
      simp [decodeNt4Data, Nt4Data.encode, reDecode, asBoolC, asF64C, asI64C, asF32C,
        asStrC, asBytesC, asBoolArr, asF64Arr, optMap, asU8C, optMap_map_f64]
  | IntArray l =>
    cases hm : optMap asU8C (l.map Mp.int) with
    | some bs =>
      simp [decodeNt4Data, Nt4Data.encode, reDecode, asBoolC, asF64C, asI64C, asF32C,
        asStrC, asBytesC, hm]
    | none =>
      simp [decodeNt4Data, Nt4Data.encode, reDecode, asBoolC, asF64C, asI64C, asF32C,
        asStrC, asBytesC, asBoolArr, asF64Arr, hm, optMap_map_int_f64]
      cases l with
      | nil => simp [optMap] at hm
      | cons x xs => simp [optMap, asBoolC]
  | FloatArray l =>
    cases l with
    | nil => rfl
    | cons x xs =>
      simp [decodeNt4Data, Nt4Data.encode, reDecode, asBoolC, asF64C, asI64C, asF32C,
        asStrC, asBytesC, asBoolArr, asF64Arr, optMap, asU8C, optMap_map_f32_f64]
  | StringArray l =>
    cases l with
    | nil => rfl
    | cons x xs =>
      simp [decodeNt4Data, Nt4Data.encode, reDecode, asBoolC, asF64C, asI64C, asF32C,
        asStrC, asBytesC, asBoolArr, asF64Arr, asI64Arr, asF32Arr, asStrArr, optMap,
        asU8C, optMap_map_str]

/-- A value is a fixed point of `reDecode` exactly when it is in the
round-trip set. -/
theorem reDecode_eq_self_iff (v : Nt4Data) : reDecode v = v ↔ roundtrips v = true := by
  cases v with
  | Boolean b => simp [reDecode, roundtrips]
  | Double d => simp [reDecode, roundtrips]
  | Int n => simp [reDecode, roundtrips]
  | Float b => simp [reDecode, roundtrips]
  | String s => simp [reDecode, roundtrips]
  | Json s => simp [reDecode, roundtrips]
  | Raw b => cases h : utf8Decode? b <;> simp [reDecode, roundtrips, h]
  | Rpc b => cases h : utf8Decode? b <;> simp [reDecode, roundtrips, h]
  | MsgPack b => cases h : utf8Decode? b <;> simp [reDecode, roundtrips, h]
  | Protobuf b => cases h : utf8Decode? b <;> simp [reDecode, roundtrips, h]
  | BooleanArray l => cases l <;> simp [reDecode, roundtrips]
  | DoubleArray l => cases l <;> simp [reDecode, roundtrips]
  | IntArray l => cases hm : optMap asU8C (l.map Mp.int) <;> simp [reDecode, roundtrips, hm]
  | FloatArray l => cases l <;> simp [reDecode, roundtrips]
  | StringArray l => cases l <;> simp [reDecode, roundtrips]

theorem get_id_le (v : Nt4Data) : v.get_id ≤ 255 := by
  cases v <;> simp [Nt4Data.get_id]

theorem asU8C_get_id (v : Nt4Data) : asU8C (Mp.int (v.get_id : Int)) = some v.get_id := by
  cases v <;> rfl

/-- Claim C1: for every `Nt4Data` value `v`, deserializing the binary-frame
encoding of a frame carrying `v` (whose declared type id is `v`'s own id, as
the `Serialize` impl writes it) succeeds with exactly `v` — refuted; the
amended characterization: the round trip returns exactly the original frame
precisely for `Boolean`, `Double` and `String` values, `Raw` values whose
bytes are not valid UTF-8, and nonempty `BooleanArray`/`DoubleArray`/
`StringArray` values; every other value (including `Int`, `Float`, `Json`,
the `Rpc`/`MsgPack`/`Protobuf` aliases and empty arrays) decodes to a
different variant or fails with a type-mismatch error. -/
theorem c1_roundtrip_amended (t ts : Int) (v : Nt4Data)
    (h1 : -(2 ^ 31) ≤ t) (h2 : t < 2 ^ 31) (h3 : -(2 ^ 63) ≤ ts) (h4 : ts < 2 ^ 63) :
    decodeFrame (encodeFrame ⟨t, ts, v⟩) = .ok ⟨t, ts, v⟩ ↔ roundtrips v = true := by
  have hA : asI32C (Mp.int t) = some t := by
    show (if -(2 ^ 31) ≤ t ∧ t < 2 ^ 31 then some t else none) = some t
    exact if_pos ⟨h1, h2⟩
  have hB : asI64C (Mp.int ts) = some ts := by
    show (if -(2 ^ 63) ≤ ts ∧ ts < 2 ^ 63 then some ts else none) = some ts
    exact if_pos ⟨h3, h4⟩
  have key : decodeFrame (encodeFrame ⟨t, ts, v⟩) =
      (if (reDecode v).get_id ≠ v.get_id then
        (match Nt4TypeId.from_id v.get_id with
         | .error _ => Except.error (DecodeError.unknownTypeId v.get_id)
         | .ok expected => Except.error (DecodeError.typeMismatch (reDecode v).get_name expected))
      else .ok ⟨t, ts, reDecode v⟩) := by
    show decodeFrame
        (Mp.arr [Mp.int t, Mp.int ts, Mp.int (v.get_id : Int), Nt4Data.encode v]) = _
    simp only [decodeFrame, hA, hB, asU8C_get_id v, decodeNt4Data_encode v]
  rw [key]
  by_cases hid : (reDecode v).get_id = v.get_id
  · rw [if_neg (by simpa using hid)]
    simp only [Except.ok.injEq, BinaryDataFrame.mk.injEq, true_and]
    exact reDecode_eq_self_iff v
  · rw [if_pos hid]
    have hrt : roundtrips v = false := by
      rcases h : roundtrips v with _ | _
      · rfl
      · exact absurd (congrArg Nt4Data.get_id ((reDecode_eq_self_iff v).mpr h)) hid
    cases Nt4TypeId.from_id v.get_id <;> simp [hrt]

/-- Claim C1 witness for the amended characterization, at the concrete frame
carrying `Boolean true`. -/
theorem c1_roundtrip_witness :
    decodeFrame (encodeFrame ⟨0, 0, Nt4Data.Boolean true⟩) =
      .ok ⟨0, 0, Nt4Data.Boolean true⟩ :=
  (c1_roundtrip_amended 0 0 (Nt4Data.Boolean true) (by decide) (by decide) (by decide)
    (by decide)).mpr (by decide)

/-- Claim C1 counterexample: the frame carrying `Int 5` does not survive the
round trip — the integer content is captured by the untagged decoder's
earlier `Double` variant (id 1), which mismatches the declared id 2, so
deserialization returns a type-mismatch error instead of the frame. -/
theorem c1_roundtrip_counterexample :
    decodeFrame (encodeFrame ⟨0, 0, Nt4Data.Int 5⟩) =
      .error (DecodeError.typeMismatch "double" Nt4TypeId.Int) := by
  rfl

/-- Claim C2: whenever the declared type id disagrees with the id of the value
actually decoded from the fourth tuple element, `decodeFrame` returns a decode
error and never a frame (part 1, as claimed); amended for the particular
example: integer-encoded value bytes decode as the `Double` variant (id 1), so
a frame with `type_id = 1` and integer value bytes is *accepted* as a
`Double` (part 2), while `type_id = 2` with the same bytes is the one that is
rejected (part 3). -/
theorem c2_mismatch_amended :
    (∀ (a b c d : Mp) (t ts : Int) (id : Nat) (v : Nt4Data),
      asI32C a = some t → asI64C b = some ts → asU8C c = some id →
      decodeNt4Data d = some v → v.get_id ≠ id →
      ∃ e, decodeFrame (Mp.arr [a, b, c, d]) = .error e) ∧
    (∀ n : Int, decodeFrame (Mp.arr [Mp.int 0, Mp.int 0, Mp.int 1, Mp.int n]) =
      .ok ⟨0, 0, Nt4Data.Double (intToF64Bits n)⟩) ∧
    (∀ n : Int, decodeFrame (Mp.arr [Mp.int 0, Mp.int 0, Mp.int 2, Mp.int n]) =
      .error (DecodeError.typeMismatch "double" Nt4TypeId.Int)) := by
  refine ⟨?_, fun n => rfl, fun n => rfl⟩
  intro a b c d t ts id v hA hB hC hD hne
  simp only [decodeFrame, hA, hB, hC, hD]
  rw [if_pos hne]
  cases Nt4TypeId.from_id id <;> exact ⟨_, rfl⟩

/-- Claim C2 witness: a frame declaring type id 0 (boolean) whose value
decodes as a string (id 4) is rejected. -/
theorem c2_mismatch_witness :
    ∃ e, decodeFrame (Mp.arr [Mp.int 3, Mp.int 4, Mp.int 0, Mp.str "x"]) = .error e :=
  c2_mismatch_amended.1 (Mp.int 3) (Mp.int 4) (Mp.int 0) (Mp.str "x") 3 4 0
    (Nt4Data.String "x") (by decide) (by decide) (by decide) (by rfl) (by decide)

/-- Claim C2 counterexample: a frame with declared `type_id = 1` (double)
whose value bytes encode an integer is *not* rejected — the untagged decoder
produces the `Double` variant for the integer content, the ids agree, and
deserialization succeeds. -/
theorem c2_mismatch_counterexample :
    decodeFrame (Mp.arr [Mp.int 7, Mp.int 0, Mp.int 1, Mp.int 42]) =
      .ok ⟨7, 0, Nt4Data.Double (intToF64Bits 42)⟩ := by
  rfl

/-- Claim C3: `WpiLogRecordHeader` parsing is claimed to shift bits 2–3 and
4–6 down before adding one; the code masks without shifting.  Evaluations:
control byte `0b00000000` does give all lengths 1 (the part that holds), but
byte `0b00000100` gives `payload_size_len = 5` where the claim's formula
(`specHeaderLens`) gives 2, and byte `0b00010000` gives `timestamp_len = 17`
where the claim gives 2. -/
theorem c3_header_lengths_code_eval :
    WpiLogRecordHeader.read 0 = ⟨1, 1, 1⟩ ∧
    WpiLogRecordHeader.read 4 = ⟨1, 5, 1⟩ ∧
    specHeaderLens 4 = ⟨1, 2, 1⟩ ∧
    WpiLogRecordHeader.read 16 = ⟨1, 1, 17⟩ ∧
    specHeaderLens 16 = ⟨1, 1, 2⟩ ∧
    WpiLogRecordHeader.read 4 ≠ specHeaderLens 4 := by
  decide

/-- Claim C4: `read_varlen_u32` is claimed to return the integer whose
little-endian encoding is the bytes read, zero-extended; on `[0x34, 0x12]`
(claimed value `0x1234 = specVarlenLE [0x34, 0x12]`) the code instead yields
`0x12340000` under a little-endian read and `0x3412` under a big-endian read
(its double-reverse right-aligns the bytes in original order), and
`read_varlen_u64` misreads the same bytes the same way. -/
theorem c4_varlen_code_eval :
    read_varlen_u32 Endian.le [0x34, 0x12] = some 0x12340000 ∧
    read_varlen_u32 Endian.be [0x34, 0x12] = some 0x3412 ∧
    read_varlen_u64 Endian.le [0x34, 0x12] = some 0x1234000000000000 ∧
    read_varlen_u64 Endian.be [0x34, 0x12] = some 0x3412 ∧
    specVarlenLE [0x34, 0x12] = 0x1234 ∧
    (∀ e : Endian, read_varlen_u32 e [0x34, 0x12] ≠ some (specVarlenLE [0x34, 0x12])) := by
  refine ⟨by decide, by decide, by decide, by decide, by decide, ?_⟩
  intro e
  cases e <;> decide

/-- Claim C5: `SubscriptionOptions`' boolean fields are claimed to default to
`false` with `periodic` defaulting to 0.1 seconds; the source's
`defaults::def_false` returns `true`, so `Default` and field-omitting
deserialization set `all`, `topicsonly` and `prefix` to `true` (the
`periodic = 0.1 s` part holds). -/
theorem c5_subscription_defaults_code_eval :
    def_false = true ∧
    SubscriptionOptions.default.all = true ∧
    SubscriptionOptions.default.topicsonly = true ∧
    SubscriptionOptions.default.prefixFlag = true ∧
    SubscriptionOptions.default.periodic = 1 / 10 ∧
    subscriptionOptionsDeserialize none none none none = SubscriptionOptions.default := by
  refine ⟨rfl, rfl, rfl, rfl, ?_, rfl⟩
  norm_num [SubscriptionOptions.default, duration_100ms]

/-- Claim C6: on a timesync reply the clock offset becomes
`server_timestamp - (now_local - local_time_sent) / 2 - local_time_sent`, and
every subsequently sent frame's timestamp is the local elapsed microseconds
plus that offset (`State::now`).  Stated at whole microseconds with the
source's casts in range: the send time is a nonnegative `i32`-range value, the
round trip is nonnegative, even and `u32`/`i32`-range, the server timestamp is
`i32`-range, and the resulting frame timestamp fits an `i32`. -/
theorem c6_clock_offset (localSent nowLocal : Int) (serverTime : Nat) (elapsed : Int)
    (h1 : 0 ≤ localSent) (h2 : localSent < 2 ^ 31)
    (h3 : localSent ≤ nowLocal) (h4 : nowLocal - localSent < 2 ^ 31)
    (h5 : (nowLocal - localSent) % 2 = 0) (h6 : serverTime < 2 ^ 31)
    (h7 : 0 ≤ elapsed) (h8 : elapsed < 2 ^ 31)
    (h9 : 0 ≤ elapsed + computeOffset serverTime localSent nowLocal)
    (h10 : elapsed + computeOffset serverTime localSent nowLocal < 2 ^ 31) :
    computeOffset serverTime localSent nowLocal =
      (serverTime : Int) - (nowLocal - localSent) / 2 - localSent ∧
    (stateNow (computeOffset serverTime localSent nowLocal) elapsed : Int) =
      elapsed + computeOffset serverTime localSent nowLocal := by
  have hoff : computeOffset serverTime localSent nowLocal =
      (serverTime : Int) - (nowLocal - localSent) / 2 - localSent := by
    unfold computeOffset roundHalfDiv2 f64AsU32 u32AsI32 f64AsI32
    dsimp only
    split_ifs <;> omega
  refine ⟨hoff, ?_⟩
  unfold stateNow f64AsI32
  split_ifs <;> omega

/-- Claim C6 witness: the spec's concrete instance — `local_send = 1000`,
`now_local = 1100`, `server = 5000` gives offset 3950; a frame sent at local
elapsed 2000 then carries timestamp `2000 + 3950`. -/
theorem c6_clock_offset_witness :
    computeOffset 5000 1000 1100 = (5000 : Int) - (1100 - 1000) / 2 - 1000 ∧
    (stateNow (computeOffset 5000 1000 1100) 2000 : Int) =
      2000 + computeOffset 5000 1000 1100 :=
  c6_clock_offset 1000 1100 5000 2000 (by decide) (by decide) (by decide) (by decide)
    (by decide) (by decide) (by decide) (by decide) (by decide) (by decide)

/-- Claim C7 counterexample: a socket `error` event delivered while the
session is not ready *does* fire the close callbacks (the source's `"error"`
arm falls through to the callback/reconnect block without checking
readiness). -/
theorem c7_close_counterexample : (onSocketEvent false "error").closeFired = true := by
  rfl

/-- Claim C7, amended: a `close` event while not ready fires no close
callback, schedules no reconnect and leaves state untouched; a `close` event
while ready — and an `error` event regardless of readiness — fires each
registered close callback exactly once, schedules exactly one reconnect after
the fixed 3000 ms backoff, cancels the periodic sync timer and clears
readiness; any other event tag does nothing. -/
theorem c7_close_amended (ready : Bool) (ty : StrT) :
    ((onSocketEvent ready ty).closeFired ↔ ty = "error" ∨ (ty = "close" ∧ ready = true)) ∧
    (onSocketEvent ready ty).reconnectsScheduled =
      (if (onSocketEvent ready ty).closeFired then 1 else 0) ∧
    ((onSocketEvent ready ty).closeFired = true →
      (onSocketEvent ready ty).backoffMs = some 3000 ∧
      (onSocketEvent ready ty).syncTimerCleared = true) ∧
    (onSocketEvent ready ty).readyAfter = (!(onSocketEvent ready ty).closeFired && ready) := by
  by_cases h1 : ty = "error"
  · subst h1
    cases ready <;> simp [onSocketEvent]
  · by_cases h2 : ty = "close"
    · subst h2
      cases ready <;> simp [onSocketEvent]
    · cases ready <;> simp [onSocketEvent, h1, h2]

/-- Claim C7 witness for the amended statement: a close event while ready
fires the callbacks, cancels the timer, and schedules one 3000 ms-delayed
reconnect. -/
theorem c7_close_witness :
    (onSocketEvent true "close").backoffMs = some 3000 ∧
    (onSocketEvent true "close").syncTimerCleared = true :=
  (c7_close_amended true "close").2.2.1 (by decide)

/-- Claim C8: processing an inbound `Unannounce` is claimed to remove the
pair from the name-to-topic-id map and invoke the unannounce listeners — the
source's text dispatch handles only `Announce` (its `_ => {}` arm drops
`Unannounce` and `Properties`): the map is left unchanged and no unannounce
or properties listener is ever invoked, while `Announce` does insert and
fan out. -/
theorem c8_unannounce_code_eval :
    processTextFrame [("/t", 3)] (TextFrame.Unannounce "/t" 3) =
      { topicNames := [("/t", 3)], announceArgs := none, unannounceArgs := none
      , propertiesArgs := none } ∧
    processTextFrame [("/t", 3)] (TextFrame.Properties "/t" true) =
      { topicNames := [("/t", 3)], announceArgs := none, unannounceArgs := none
      , propertiesArgs := none } ∧
    processTextFrame [] (TextFrame.Announce "/t" 3 "double" 0 ⟨false, false⟩) =
      { topicNames := [("/t", 3)], announceArgs := some ("/t", "double")
      , unannounceArgs := none, propertiesArgs := none } ∧
    (∀ (m : List (StrT × Int)) (name : StrT) (id : Int),
      processTextFrame m (TextFrame.Unannounce name id) =
        { topicNames := m, announceArgs := none, unannounceArgs := none
        , propertiesArgs := none }) := by
  refine ⟨rfl, rfl, rfl, fun m name id => rfl⟩

/-- Claim C9: every timesync probe the client actually sends (`timesync` in
src/lib.rs) has topic -1 and timestamp 0 but declares type id 1 (double) and
carries the elapsed time as `f64` content — contradicting the claim's (and
`BinaryDataFrame::timesync`'s own) integer type id 2. -/
theorem c9_timesync_code_eval :
    (∀ bits : F64Bits, libTimesync bits =
      { topicId := -1, timestamp := 0, typeId := 1, value := Mp.f64 bits }) ∧
    Nt4TypeId.from_id 1 = Except.ok Nt4TypeId.Double ∧
    Nt4TypeId.from_id 2 = Except.ok Nt4TypeId.Int ∧
    (∀ time : Int, (BinaryDataFrame.timesync time).data.get_id = 2) :=
  ⟨fun _ => rfl, rfl, rfl, fun _ => rfl⟩

/-- Claim C10: a WPILOG data payload shorter than its resolved type's fixed
width is claimed to fail with a format error for that record only; the
source's `RawData::get_data` indexes the payload directly, so such records
panic (modelled as `none`): a 1-byte `Double` payload, a 7-byte `Int`
payload, a 3-byte `Float` payload, an empty `Boolean` payload, and a
`StringArray` whose length prefix points past the payload end all hit
out-of-bounds indexing, while a full-width payload succeeds. -/
theorem c10_short_payload_code_eval :
    (RawData.mk 1 [0x40]).get_data Nt4TypeId.Double = none ∧
    (RawData.mk 1 [1, 2, 3, 4, 5, 6, 7]).get_data Nt4TypeId.Int = none ∧
    (RawData.mk 1 [1, 2, 3]).get_data Nt4TypeId.Float = none ∧
    (RawData.mk 1 []).get_data Nt4TypeId.Boolean = none ∧
    (RawData.mk 1 [0, 0, 0, 2, 0, 0, 0, 5, 97]).get_data Nt4TypeId.StringArray = none ∧
    (RawData.mk 1 [0x3f, 0xf0, 0, 0, 0, 0, 0, 0]).get_data Nt4TypeId.Double =
      some (1, Nt4Data.Double 0x3ff0000000000000) := by
  decide
